import Mathlib

/-!
Verification of the account-block construction pipeline of `znn.ts`
(`src/lib/src/utils/block.ts`, class `BlockUtils`) against its
natural-language specification.

The pipeline is embedded shallowly: byte sequences are `List Nat`
(each entry a byte value), machine integers are `Nat`/`Int` with
explicit modular reduction where overflow matters, the remote
collaborators (Ledger Reader/Writer, Plasma-Quota, PoW Solver, key
material) are explicit function-valued environments, and every stage
returns both an `Except`-result and the trace of collaborator
invocations it performed, so that ordering and invocation-count
properties can be stated.

The byte-level helpers (`BytesUtils`, `Hash`, `HashHeight`,
`BlockTypeEnum`, `generatePoW`) are code of this repository that is not
under `src/`; they are modelled from the specification, as noted on
each definition.
-/

namespace ZnnTs

/-- Byte sequences are lists of naturals; every byte produced by the
encoders below is `< 256`. -/
abbrev Bytes := List Nat

/-- Modelled from the spec: the fixed-width unsigned big-endian
encoding of a natural number, `k` bytes wide ("fixed-width integers
are big-endian"). The most significant byte comes first. -/
def beBytes : Nat → Nat → Bytes
  | 0, _ => []
  | k + 1, n => beBytes k (n / 256) ++ [n % 256]

/-- The number a big-endian byte sequence denotes (most significant
byte first). Used to characterise `beBytes` as THE big-endian
encoding. -/
def fromBeBytes (l : Bytes) : Nat :=
  l.foldl (fun a b => a * 256 + b) 0

/-- Modelled from the spec: `BytesUtils.longToBytes` (not under
`src/`); 8-byte big-endian encoding of a small integer. -/
def longToBytes (n : Nat) : Bytes := beBytes 8 n

/-- Modelled from the spec and the negative-amount note in
`block.ts` (lines 31-35): `BytesUtils.numberToBytes` (not under
`src/`) emits the value reduced modulo `2^(8*size)` in big-endian
form, i.e. two's-complement bytes for negative inputs (the observed
`255, 255, ..., 232` sequence), not an unsigned encoding. -/
def numberToBytes (a : Int) (size : Nat) : Bytes :=
  beBytes size (Int.toNat (a % ((2 : Int) ^ (8 * size))))

/-- Modelled from the spec: `BytesUtils.leftPadBytes` (not under
`src/`); pad a byte sequence on the left with zero bytes up to `size`
("nonce(8, left-padded)"); a sequence already at least `size` long is
returned unchanged. -/
def leftPadBytes (l : Bytes) (size : Nat) : Bytes :=
  if size ≤ l.length then l else List.replicate (size - l.length) 0 ++ l

/-- Value of one hexadecimal digit character, if it is one. -/
def hexDigitVal? (c : Char) : Option Nat :=
  if '0' ≤ c ∧ c ≤ '9' then some (c.toNat - '0'.toNat)
  else if 'a' ≤ c ∧ c ≤ 'f' then some (c.toNat - 'a'.toNat + 10)
  else if 'A' ≤ c ∧ c ≤ 'F' then some (c.toNat - 'A'.toNat + 10)
  else none

/-- Greedy pairwise hexadecimal decoding: decode two hex digits at a
time, stopping at the first character pair that is not two hex digits
(a trailing odd digit is dropped). This is the behaviour of
`Buffer.from(s, "hex")` used at `block.ts` line 44. -/
def hexPairs : List Char → Bytes
  | c1 :: c2 :: rest =>
    match hexDigitVal? c1, hexDigitVal? c2 with
    | some hi, some lo => (hi * 16 + lo) :: hexPairs rest
    | _, _ => []
  | _ => []

/-- Modelled from the spec: the `nonce` field is "hex-encoded at
rest"; `Buffer.from(nonce, "hex")` decodes it. -/
def hexToBytes (s : String) : Bytes := hexPairs s.data

/-- Modelled from the spec: the well-known empty-hash sentinel
(`emptyHash`, not under `src/`), the all-zero 32-byte digest value. -/
def emptyHashBytes : Bytes := List.replicate 32 0

/-- Modelled from the spec: a `{32-byte digest, integer height}` pair
(`HashHeight`, not under `src/`), used for `momentumAcknowledged`. -/
structure HashHeight where
  hash : Bytes
  height : Nat
deriving DecidableEq

/-- Modelled from the spec: the serialized form of a `HashHeight` is a
32-byte digest ("momentumAcknowledged-as-digest(32)") of the hash
followed by the 8-byte big-endian height. -/
def hashHeightBytes (digest : Bytes → Bytes) (hh : HashHeight) : Bytes :=
  digest (hh.hash ++ longToBytes hh.height)

/-- Modelled from the spec: the closed `blockType` enumeration
(`BlockTypeEnum`, not under `src/`): user-send, user-receive,
genesis-receive, contract-send, contract-receive, with an `unknown`
zero value; numbered in declaration order as a TypeScript enum. -/
def BlockTypeEnum.unknown : Nat := 0

/-- Modelled from the spec: the genesis-receive block type. -/
def BlockTypeEnum.genesisReceive : Nat := 1

/-- Modelled from the spec: the user-send block type. -/
def BlockTypeEnum.userSend : Nat := 2

/-- Modelled from the spec: the user-receive block type. -/
def BlockTypeEnum.userReceive : Nat := 3

/-- Modelled from the spec: the contract-send block type. -/
def BlockTypeEnum.contractSend : Nat := 4

/-- Modelled from the spec: the contract-receive block type. -/
def BlockTypeEnum.contractReceive : Nat := 5

/-- The mutable transaction-under-construction
(`AccountBlockTemplate`, spec section 3). Addresses are 20-byte
sequences, hashes 32-byte sequences, `tokenStandard` a fixed-width
token identifier, `amount` an integer of signed 256-bit range, and
`nonce` a hex string. -/
structure AccountBlockTemplate where
  version : Nat
  chainIdentifier : Nat
  blockType : Nat
  previousHash : Bytes
  height : Nat
  momentumAcknowledged : HashHeight
  address : Bytes
  toAddress : Bytes
  amount : Int
  tokenStandard : Bytes
  fromBlockHash : Bytes
  data : Bytes
  fusedPlasma : Nat
  difficulty : Nat
  nonce : String
  publicKey : Bytes
  signature : Bytes
  hash : Bytes
deriving DecidableEq

/-- `BlockUtils.isSendBlock` (`block.ts` lines 12-14):
`[BlockTypeEnum.userSend, BlockTypeEnum.contractSend].includes(blockType!)`,
where `blockType` is an optional parameter — a missing value is a
member of no list, hence `false`. -/
def isSendBlock (blockType : Option Nat) : Bool :=
  match blockType with
  | some bt => [BlockTypeEnum.userSend, BlockTypeEnum.contractSend].contains bt
  | none => false

/-- `BlockUtils.isReceiveBlock` (`block.ts` lines 16-18). -/
def isReceiveBlock (blockType : Nat) : Bool :=
  [BlockTypeEnum.userReceive, BlockTypeEnum.genesisReceive,
    BlockTypeEnum.contractReceive].contains blockType

/-- The byte sequence digested by `BlockUtils.getTransactionHash`
(`block.ts` lines 20-63): the concatenation of the sixteen fields in
source order. `digest` is the network's pinned 256-bit hash function,
passed explicitly (`Hash.digest` is not under `src/`). -/
def getTransactionHashSource (digest : Bytes → Bytes)
    (t : AccountBlockTemplate) : Bytes :=
  let versionBytes := longToBytes t.version
  let chainIdentifierBytes := longToBytes t.chainIdentifier
  let blockTypeBytes := longToBytes t.blockType
  let previousHashBytes := t.previousHash
  let heightBytes := longToBytes t.height
  let momentumAcknowledgedBytes := hashHeightBytes digest t.momentumAcknowledged
  let addressBytes := t.address
  let toAddressBytes := t.toAddress
  let amountBytes := numberToBytes t.amount 32
  let tokenStandardBytes := t.tokenStandard
  let fromBlockHashBytes := t.fromBlockHash
  let descendentBlocksBytes := digest []
  let dataBytes := digest t.data
  let fusedPlasmaBytes := longToBytes t.fusedPlasma
  let difficultyBytes := longToBytes t.difficulty
  let nonceBytes := leftPadBytes (hexToBytes t.nonce) 8
  versionBytes ++ chainIdentifierBytes ++ blockTypeBytes ++
    previousHashBytes ++ heightBytes ++ momentumAcknowledgedBytes ++
    addressBytes ++ toAddressBytes ++ amountBytes ++
    tokenStandardBytes ++ fromBlockHashBytes ++ descendentBlocksBytes ++
    dataBytes ++ fusedPlasmaBytes ++ difficultyBytes ++ nonceBytes

/-- `BlockUtils.getTransactionHash` (`block.ts` line 65): the digest
of the concatenated field encoding. -/
def getTransactionHash (digest : Bytes → Bytes)
    (t : AccountBlockTemplate) : Bytes :=
  digest (getTransactionHashSource digest t)

/-- `BlockUtils._getPoWData` (`block.ts` lines 73-76): the
proof-of-work input, the digest of `address ++ previousHash`. -/
def getPoWData (digest : Bytes → Bytes) (t : AccountBlockTemplate) : Bytes :=
  digest (t.address ++ t.previousHash)

/-- The frontier block of an account chain, as returned by the Ledger
Reader: only its `height` and `hash` are consumed
(`block.ts` lines 83-86). -/
structure FrontierBlock where
  height : Nat
  hash : Bytes
deriving DecidableEq

/-- A ledger block resolved by hash: only its `toAddress` is consumed
(`block.ts` line 116). -/
structure LedgerBlock where
  toAddress : Bytes
deriving DecidableEq

/-- The Plasma-Quota response
(`embedded.plasma.getRequiredPoWForAccountBlock`). -/
structure PlasmaResponse where
  availablePlasma : Nat
  basePlasma : Nat
  requiredDifficulty : Nat
deriving DecidableEq

/-- The Plasma-Quota query parameter (`GetRequiredParam`,
`block.ts` line 132): `{address, blockType, toAddress, data}`. -/
structure GetRequiredParam where
  address : Bytes
  blockType : Nat
  toAddress : Bytes
  data : Bytes
deriving DecidableEq

/-- The external collaborators of the pipeline (Ledger Reader,
Plasma-Quota, PoW Solver), as pure functions: the embedding of the
`zenonInstance` and `generatePoW` dependencies. -/
structure Env where
  getFrontierBlock : Bytes → Option FrontierBlock
  frontierMomentum : HashHeight
  getBlockByHash : Bytes → Option LedgerBlock
  getRequiredPoW : GetRequiredParam → PlasmaResponse
  generatePoW : Bytes → Nat → String

/-- The caller's key material: address, public key and signing
primitive. -/
structure KeyPair where
  address : Bytes
  publicKey : Bytes
  sign : Bytes → Bytes

/-- The progress signals of the PoW search (`PowStatus`, not under
`src/`): "generating" then "done". -/
inductive PowStatus where
  | generating
  | done
deriving DecidableEq

/-- One collaborator invocation, recorded in the trace a pipeline
stage emits. -/
inductive Event where
  | frontierBlockQuery (address : Bytes)
  | frontierMomentumQuery
  | blockByHashQuery (h : Bytes)
  | plasmaQuery (p : GetRequiredParam)
  | observerSignal (s : PowStatus)
  | powSolve (powData : Bytes) (difficulty : Nat)
  | signCall (msg : Bytes)
  | publishCall (t : AccountBlockTemplate)
deriving DecidableEq

/-- The optional caller-supplied progress observer
(`generatingPowCallback`). It may fail (throw), which the source does
not guard against. -/
def Observer := Option (PowStatus → Except Unit Unit)

/-- Invoke the observer when present
(`generatingPowCallback?.call(...)`): a missing observer is a no-op
that cannot fail. -/
def notifyObserver (cb : Observer) (s : PowStatus) : Except Unit Unit :=
  match cb with
  | none => Except.ok ()
  | some f => f s

/-- Trace of an observer invocation: a signal is emitted only when an
observer is present. -/
def observerEvents (cb : Observer) (s : PowStatus) : List Event :=
  match cb with
  | none => []
  | some _ => [Event.observerSignal s]

/-- `BlockUtils._autofillTransactionParameters`
(`block.ts` lines 78-96): query the frontier block of the template's
address, set `height`/`previousHash` from it (or `1`/empty-hash when
absent), then query the frontier momentum and set
`momentumAcknowledged` to its hash-height pair. -/
def autofillTransactionParameters (env : Env) (t : AccountBlockTemplate) :
    AccountBlockTemplate × List Event :=
  let fb := env.getFrontierBlock t.address
  let hp : Nat × Bytes :=
    match fb with
    | none => (1, emptyHashBytes)
    | some f => (f.height + 1, f.hash)
  ({ t with
      height := hp.1
      previousHash := hp.2
      momentumAcknowledged :=
        ⟨env.frontierMomentum.hash, env.frontierMomentum.height⟩ },
    [Event.frontierBlockQuery t.address, Event.frontierMomentumQuery])

/-- `BlockUtils._checkAndSetFields` (`block.ts` lines 98-129): set
`address` and `publicKey` from the key material, run autofill, then
apply the receive-specific structural checks when the block type is
not a send variant, and finally the difficulty/nonce consistency
guard. Every failure is the bare `throw Error()` of the source,
carrying no information: the error type is `Unit`. -/
def checkAndSetFields (env : Env) (kp : KeyPair) (t : AccountBlockTemplate) :
    Except Unit AccountBlockTemplate × List Event :=
  let t0 := { t with address := kp.address, publicKey := kp.publicKey }
  let afr := autofillTransactionParameters env t0
  let t1 := afr.1
  let evA := afr.2
  if isSendBlock (some t1.blockType) then
    if t1.difficulty > 0 ∧ t1.nonce = "" then (Except.error (), evA)
    else (Except.ok t1, evA)
  else
    if t1.fromBlockHash = emptyHashBytes then (Except.error (), evA)
    else
      match env.getBlockByHash t1.fromBlockHash with
      | none => (Except.error (), evA ++ [Event.blockByHashQuery t1.fromBlockHash])
      | some sendBlock =>
        if ¬ sendBlock.toAddress = t1.address then
          (Except.error (), evA ++ [Event.blockByHashQuery t1.fromBlockHash])
        else if t1.data.length > 0 then
          (Except.error (), evA ++ [Event.blockByHashQuery t1.fromBlockHash])
        else if t1.difficulty > 0 ∧ t1.nonce = "" then
          (Except.error (), evA ++ [Event.blockByHashQuery t1.fromBlockHash])
        else (Except.ok t1, evA ++ [Event.blockByHashQuery t1.fromBlockHash])

/-- `BlockUtils._setDifficulty` (`block.ts` lines 131-149): query the
Plasma-Quota collaborator; when `requiredDifficulty` is nonzero, set
`fusedPlasma`/`difficulty` from the response, notify the observer,
invoke the PoW Solver on the digest of `address ++ previousHash`,
store the returned nonce, and notify the observer again; otherwise
set `fusedPlasma = basePlasma`, `difficulty = 0` and the all-zero
nonce sentinel. An observer failure propagates (the source has no
guard around the callback). -/
def setDifficulty (digest : Bytes → Bytes) (env : Env) (cb : Observer)
    (t : AccountBlockTemplate) :
    Except Unit AccountBlockTemplate × List Event :=
  let p : GetRequiredParam := ⟨t.address, t.blockType, t.toAddress, t.data⟩
  let resp := env.getRequiredPoW p
  let ev0 := [Event.plasmaQuery p]
  if resp.requiredDifficulty ≠ 0 then
    let t1 := { t with
      fusedPlasma := resp.availablePlasma
      difficulty := resp.requiredDifficulty }
    let powData := getPoWData digest t1
    match notifyObserver cb PowStatus.generating with
    | Except.error e =>
      (Except.error e, ev0 ++ observerEvents cb PowStatus.generating)
    | Except.ok _ =>
      let t2 := { t1 with nonce := env.generatePoW powData t1.difficulty }
      match notifyObserver cb PowStatus.done with
      | Except.error e =>
        (Except.error e,
          ev0 ++ observerEvents cb PowStatus.generating ++
            [Event.powSolve powData t1.difficulty] ++
            observerEvents cb PowStatus.done)
      | Except.ok _ =>
        (Except.ok t2,
          ev0 ++ observerEvents cb PowStatus.generating ++
            [Event.powSolve powData t1.difficulty] ++
            observerEvents cb PowStatus.done)
  else
    (Except.ok { t with
        fusedPlasma := resp.basePlasma
        difficulty := 0
        nonce := "0000000000000000" },
      ev0)

/-- `BlockUtils._setHashAndSignature` (`block.ts` lines 151-156): set
`hash` from the canonical encoder, then sign the hash bytes and set
`signature`. -/
def setHashAndSignature (digest : Bytes → Bytes) (kp : KeyPair)
    (t : AccountBlockTemplate) :
    Except Unit AccountBlockTemplate × List Event :=
  let t1 := { t with hash := getTransactionHash digest t }
  let t2 := { t1 with signature := kp.sign t1.hash }
  (Except.ok t2, [Event.signCall t1.hash])

/-- Sequencing of pipeline stages: a failed stage short-circuits, and
the traces of executed stages are concatenated in order. -/
def stageAndThen (r : Except Unit AccountBlockTemplate × List Event)
    (f : AccountBlockTemplate → Except Unit AccountBlockTemplate × List Event) :
    Except Unit AccountBlockTemplate × List Event :=
  match r with
  | (Except.error e, evs) => (Except.error e, evs)
  | (Except.ok t, evs) =>
    let r2 := f t
    (r2.1, evs ++ r2.2)

/-- `BlockUtils.send` (`block.ts` lines 158-172): the fixed pipeline
order — validation gate, plasma fusion policy, hash and signature,
publish — returning the finalized template on success. -/
def send (digest : Bytes → Bytes) (env : Env) (kp : KeyPair) (cb : Observer)
    (t : AccountBlockTemplate) :
    Except Unit AccountBlockTemplate × List Event :=
  stageAndThen (checkAndSetFields env kp t) (fun t1 =>
    stageAndThen (setDifficulty digest env cb t1) (fun t2 =>
      stageAndThen (setHashAndSignature digest kp t2) (fun t3 =>
        (Except.ok t3, [Event.publishCall t3]))))

/-- Decidable equality for `Except` results, so that concrete pipeline
outcomes can be checked by evaluation. -/
instance {ε α : Type} [DecidableEq ε] [DecidableEq α] :
    DecidableEq (Except ε α) := fun x y =>
  match x, y with
  | Except.error e1, Except.error e2 => decidable_of_iff (e1 = e2) (by simp)
  | Except.error _, Except.ok _ => Decidable.isFalse (by simp)
  | Except.ok _, Except.error _ => Decidable.isFalse (by simp)
  | Except.ok a1, Except.ok a2 => decidable_of_iff (a1 = a2) (by simp)

/-- A constant stand-in digest with 32-byte output, used to
instantiate the pinned external hash function in witnesses. -/
def constDigest : Bytes → Bytes := fun _ => List.replicate 32 0

/-- Witness fixture: a 20-byte account address. -/
def wAddr1 : Bytes := List.replicate 19 0 ++ [1]

/-- Witness fixture: a second 20-byte account address. -/
def wAddr2 : Bytes := List.replicate 19 0 ++ [2]

/-- Witness fixture: a nonzero 32-byte hash. -/
def wHashA : Bytes := List.replicate 31 0 ++ [7]

/-- Witness fixture: a momentum hash-height pair. -/
def wMomentum : HashHeight := ⟨List.replicate 31 0 ++ [9], 41⟩

/-- Witness fixture: a 10-byte token standard. -/
def wZts : Bytes := List.replicate 10 0

/-- Witness fixture: a user-send template. -/
def wTemplate : AccountBlockTemplate :=
  ⟨1, 1, BlockTypeEnum.userSend, emptyHashBytes, 0, ⟨emptyHashBytes, 0⟩,
    wAddr1, wAddr2, 100, wZts, emptyHashBytes, [], 0, 0, "", [], [], []⟩

/-- Witness fixture: a user-receive template referencing `wHashA`. -/
def wReceiveTemplate : AccountBlockTemplate :=
  ⟨1, 1, BlockTypeEnum.userReceive, emptyHashBytes, 0, ⟨emptyHashBytes, 0⟩,
    wAddr1, wAddr1, 0, wZts, wHashA, [], 0, 0, "", [], [], []⟩

/-- Witness fixture: an environment with no frontier block, no
resolvable blocks, and zero required difficulty. -/
def wEnvNoFrontier : Env :=
  ⟨fun _ => none, wMomentum, fun _ => none, fun _ => ⟨1000, 21000, 0⟩,
    fun _ _ => "00000000000000ab"⟩

/-- Witness fixture: a frontier block at height 5. -/
def wFrontier : FrontierBlock := ⟨5, wHashA⟩

/-- Witness fixture: an environment with a frontier block, a
resolvable send block addressed to `wAddr1`, and required
difficulty 31. -/
def wEnvPow : Env :=
  ⟨fun _ => some wFrontier, wMomentum, fun _ => some ⟨wAddr1⟩,
    fun _ => ⟨1000, 21000, 31⟩, fun _ _ => "00000000000000ab"⟩

/-- Witness fixture: the caller's key material. -/
def wKeyPair : KeyPair := ⟨wAddr1, List.replicate 32 3, fun m => 0 :: m⟩

/-- Witness fixture: a receive template violating rule (a), the
empty `fromBlockHash` sentinel check. -/
def wRuleATemplate : AccountBlockTemplate :=
  { wReceiveTemplate with fromBlockHash := emptyHashBytes }

/-- Witness fixture: a receive template violating rule (d), carrying
a non-empty payload. -/
def wRuleDTemplate : AccountBlockTemplate :=
  { wReceiveTemplate with data := [1] }

/-- Witness fixture: a template whose block type is outside the
closed enumeration. -/
def wOutsideTemplate : AccountBlockTemplate :=
  { wReceiveTemplate with blockType := 7, fromBlockHash := emptyHashBytes }

/-- Witness fixture: an observer that always fails. -/
def wBadObserver : Observer := some (fun _ => Except.error ())

/-- Witness fixture: an observer that always succeeds. -/
def wGoodObserver : PowStatus → Except Unit Unit := fun _ => Except.ok ()

/-- Witness fixture: a send template pre-populated with a positive
difficulty and an empty nonce, violating the consistency guard. -/
def wGuardTemplate : AccountBlockTemplate :=
  { wTemplate with difficulty := 1, nonce := "" }

/-- The property of being the unsigned big-endian 32-byte encoding
of an integer value: the value is a natural number and the bytes are
its 32-byte big-endian digits. -/
def IsUnsignedBE32 (b : Bytes) (v : Int) : Prop :=
  ∃ n : Nat, (n : Int) = v ∧ b = beBytes 32 n

/-- The sixteen fields of the canonical encoding in the
specification's order (spec section 4.1), as separate segments, the
integer segments in unsigned big-endian form. -/
def specFieldSegments (digest : Bytes → Bytes)
    (t : AccountBlockTemplate) : List Bytes :=
  [longToBytes t.version,
    longToBytes t.chainIdentifier,
    longToBytes t.blockType,
    t.previousHash,
    longToBytes t.height,
    hashHeightBytes digest t.momentumAcknowledged,
    t.address,
    t.toAddress,
    beBytes 32 t.amount.toNat,
    t.tokenStandard,
    t.fromBlockHash,
    digest [],
    digest t.data,
    longToBytes t.fusedPlasma,
    longToBytes t.difficulty,
    leftPadBytes (hexToBytes t.nonce) 8]

/-- Identity stand-in digest, enough to exhibit the encoding
collision, which is independent of the digest function. -/
def idDigest : Bytes → Bytes := fun l => l

/-- Witness fixture: `wTemplate` with the nonce string "00" instead
of "" — a different string decoding to the same 8 padded bytes. -/
def wNonceTemplate : AccountBlockTemplate := { wTemplate with nonce := "00" }

/-! Properties: helper lemmas first, then the claim theorems and
their witnesses. -/

/-! Basic facts about the byte encoders. -/

theorem beBytes_length (k n : Nat) : (beBytes k n).length = k := by
  induction k generalizing n with
  | zero => rfl
  | succ k ih => simp [beBytes, ih]

theorem fromBeBytes_append_singleton (l : Bytes) (x : Nat) :
    fromBeBytes (l ++ [x]) = fromBeBytes l * 256 + x := by
  simp [fromBeBytes, List.foldl_append]

theorem fromBeBytes_beBytes (k n : Nat) (h : n < 256 ^ k) :
    fromBeBytes (beBytes k n) = n := by
  induction k generalizing n with
  | zero =>
    have : n = 0 := by omega
    simp [this, beBytes, fromBeBytes]
  | succ k ih =>
    have hdiv : n / 256 < 256 ^ k := by
      rw [Nat.pow_succ] at h
      omega
    rw [beBytes, fromBeBytes_append_singleton, ih (n / 256) hdiv]
    omega

theorem beBytes_injOn (k m n : Nat) (hm : m < 256 ^ k) (hn : n < 256 ^ k)
    (h : beBytes k m = beBytes k n) : m = n := by
  rw [← fromBeBytes_beBytes k m hm, ← fromBeBytes_beBytes k n hn, h]

theorem beBytes_byte_lt (k n : Nat) : ∀ x ∈ beBytes k n, x < 256 := by
  induction k generalizing n with
  | zero => simp [beBytes]
  | succ k ih =>
    intro x hx
    simp only [beBytes, List.mem_append, List.mem_singleton] at hx
    rcases hx with hx | hx
    · exact ih (n / 256) x hx
    · omega

theorem longToBytes_length (n : Nat) : (longToBytes n).length = 8 :=
  beBytes_length 8 n

theorem numberToBytes_length (a : Int) (size : Nat) :
    (numberToBytes a size).length = size :=
  beBytes_length size _

theorem leftPadBytes_length (l : Bytes) (size : Nat) (h : l.length ≤ size) :
    (leftPadBytes l size).length = size := by
  unfold leftPadBytes
  split
  · omega
  · simp only [List.length_append, List.length_replicate]
    omega

theorem longToBytes_injOn (m n : Nat) (hm : m < 2 ^ 64) (hn : n < 2 ^ 64)
    (h : longToBytes m = longToBytes n) : m = n := by
  have h256 : (256 : Nat) ^ 8 = 2 ^ 64 := by norm_num
  exact beBytes_injOn 8 m n (by omega) (by omega) h

theorem numberToBytes_nonneg (a : Int) (h0 : 0 ≤ a) (h1 : a < 2 ^ 256) :
    numberToBytes a 32 = beBytes 32 a.toNat := by
  unfold numberToBytes
  congr 1
  have : a % ((2 : Int) ^ (8 * 32)) = a := by
    apply Int.emod_eq_of_lt h0
    norm_num at h1 ⊢
    exact h1
  rw [this]

theorem numberToBytes_injOn (a b : Int)
    (ha0 : -(2 ^ 255) ≤ a) (ha1 : a < 2 ^ 255)
    (hb0 : -(2 ^ 255) ≤ b) (hb1 : b < 2 ^ 255)
    (h : numberToBytes a 32 = numberToBytes b 32) : a = b := by
  unfold numberToBytes at h
  have hNat : (256 : Nat) ^ 32 =
      115792089237316195423570985008687907853269984665640564039457584007913129639936 := by
    norm_num
  have hInt : (2 : Int) ^ (8 * 32) =
      115792089237316195423570985008687907853269984665640564039457584007913129639936 := by
    norm_num
  have hInt255 : (2 : Int) ^ 255 =
      57896044618658097711785492504343953926634992332820282019728792003956564819968 := by
    norm_num
  rw [hInt] at h
  rw [hInt255] at ha0 ha1 hb0 hb1
  have hta := beBytes_injOn 32 _ _ (by rw [hNat]; omega) (by rw [hNat]; omega) h
  omega

/-- C4. For every account address, chain-linkage autofill sets
`height = 1` and `previousHash` = empty-hash sentinel when the Ledger
Reader reports no frontier block for that address, and otherwise sets
`height = frontier.height + 1` and `previousHash = frontier.hash`; it
then sets `momentumAcknowledged` to the hash-height pair of the
current frontier momentum, and mutates no template field other than
`height`, `previousHash` and `momentumAcknowledged` (expressed by the
record-update form of the result). -/
theorem autofill_chain_linkage (env : Env) (t : AccountBlockTemplate) :
    (env.getFrontierBlock t.address = none →
      autofillTransactionParameters env t =
        ({ t with
            height := 1
            previousHash := emptyHashBytes
            momentumAcknowledged :=
              ⟨env.frontierMomentum.hash, env.frontierMomentum.height⟩ },
          [Event.frontierBlockQuery t.address, Event.frontierMomentumQuery]))
    ∧ (∀ fb, env.getFrontierBlock t.address = some fb →
      autofillTransactionParameters env t =
        ({ t with
            height := fb.height + 1
            previousHash := fb.hash
            momentumAcknowledged :=
              ⟨env.frontierMomentum.hash, env.frontierMomentum.height⟩ },
          [Event.frontierBlockQuery t.address, Event.frontierMomentumQuery])) := by
  constructor
  · intro h
    simp [autofillTransactionParameters, h]
  · intro fb h
    simp [autofillTransactionParameters, h]

/-- Witness for C4 at a concrete environment with no frontier
block. -/
theorem autofill_chain_linkage_witness :
    autofillTransactionParameters wEnvNoFrontier wTemplate =
      ({ wTemplate with
          height := 1
          previousHash := emptyHashBytes
          momentumAcknowledged :=
            ⟨wEnvNoFrontier.frontierMomentum.hash,
              wEnvNoFrontier.frontierMomentum.height⟩ },
        [Event.frontierBlockQuery wTemplate.address,
          Event.frontierMomentumQuery]) :=
  (autofill_chain_linkage wEnvNoFrontier wTemplate).1 rfl

/-- C2. For every template, when the Plasma-Quota response has
`requiredDifficulty = 0`, `_setDifficulty` sets
`fusedPlasma = basePlasma`, `difficulty = 0` and the all-zero nonce
sentinel and its trace holds no PoW-Solver invocation; when
`requiredDifficulty ≠ 0`, it sets `fusedPlasma = availablePlasma`,
`difficulty = requiredDifficulty`, its trace holds exactly one
PoW-Solver invocation, on the digest of `address ++ previousHash` at
that difficulty, and the returned nonce is stored verbatim. Stated
for any observer whose notifications succeed (the source default is
no observer). -/
theorem setDifficulty_plasma_decision (digest : Bytes → Bytes) (env : Env)
    (cb : Observer) (t : AccountBlockTemplate)
    (hcb : ∀ s, notifyObserver cb s = Except.ok ()) :
    ((env.getRequiredPoW ⟨t.address, t.blockType, t.toAddress, t.data⟩).requiredDifficulty = 0 →
      setDifficulty digest env cb t =
        (Except.ok { t with
            fusedPlasma :=
              (env.getRequiredPoW ⟨t.address, t.blockType, t.toAddress, t.data⟩).basePlasma
            difficulty := 0
            nonce := "0000000000000000" },
          [Event.plasmaQuery ⟨t.address, t.blockType, t.toAddress, t.data⟩]))
    ∧ ((env.getRequiredPoW ⟨t.address, t.blockType, t.toAddress, t.data⟩).requiredDifficulty ≠ 0 →
      setDifficulty digest env cb t =
        (Except.ok { t with
            fusedPlasma :=
              (env.getRequiredPoW ⟨t.address, t.blockType, t.toAddress, t.data⟩).availablePlasma
            difficulty :=
              (env.getRequiredPoW ⟨t.address, t.blockType, t.toAddress, t.data⟩).requiredDifficulty
            nonce := env.generatePoW (digest (t.address ++ t.previousHash))
              (env.getRequiredPoW ⟨t.address, t.blockType, t.toAddress, t.data⟩).requiredDifficulty },
          [Event.plasmaQuery ⟨t.address, t.blockType, t.toAddress, t.data⟩] ++
            observerEvents cb PowStatus.generating ++
            [Event.powSolve (digest (t.address ++ t.previousHash))
              (env.getRequiredPoW ⟨t.address, t.blockType, t.toAddress, t.data⟩).requiredDifficulty] ++
            observerEvents cb PowStatus.done)) := by
  constructor
  · intro h
    simp [setDifficulty, h]
  · intro h
    simp [setDifficulty, h, hcb, getPoWData]

/-- Witness for C2 at a concrete environment with zero required
difficulty and no observer. -/
theorem setDifficulty_plasma_decision_witness :
    setDifficulty constDigest wEnvNoFrontier none wTemplate =
      (Except.ok { wTemplate with
          fusedPlasma := 21000
          difficulty := 0
          nonce := "0000000000000000" },
        [Event.plasmaQuery
          ⟨wTemplate.address, wTemplate.blockType, wTemplate.toAddress,
            wTemplate.data⟩]) := by
  exact (setDifficulty_plasma_decision constDigest wEnvNoFrontier none
    wTemplate (fun s => rfl)).1 rfl

/-- C3. For every receive-type template, validation fails when
`fromBlockHash` equals the empty-hash sentinel; fails when the Ledger
Reader cannot resolve `fromBlockHash`; fails when the resolved send
block's `toAddress` differs from the template's address (the key
material's address, set by rule 1); and fails when the template's
`data` is non-empty. A send-type template triggers none of these
receive-specific checks: its trace holds no block-by-hash lookup and,
absent the difficulty/nonce guard, validation succeeds. -/
theorem validation_receive_gating (env : Env) (kp : KeyPair)
    (t : AccountBlockTemplate) :
    (isSendBlock (some t.blockType) = false →
      ((t.fromBlockHash = emptyHashBytes →
          (checkAndSetFields env kp t).1 = Except.error ())
      ∧ (t.fromBlockHash ≠ emptyHashBytes →
          env.getBlockByHash t.fromBlockHash = none →
          (checkAndSetFields env kp t).1 = Except.error ())
      ∧ (∀ sb, t.fromBlockHash ≠ emptyHashBytes →
          env.getBlockByHash t.fromBlockHash = some sb →
          sb.toAddress ≠ kp.address →
          (checkAndSetFields env kp t).1 = Except.error ())
      ∧ (∀ sb, t.fromBlockHash ≠ emptyHashBytes →
          env.getBlockByHash t.fromBlockHash = some sb →
          sb.toAddress = kp.address → t.data ≠ [] →
          (checkAndSetFields env kp t).1 = Except.error ())))
    ∧ (isSendBlock (some t.blockType) = true →
      ((∀ h, Event.blockByHashQuery h ∉ (checkAndSetFields env kp t).2)
      ∧ (¬(t.difficulty > 0 ∧ t.nonce = "") →
          ∃ t1, (checkAndSetFields env kp t).1 = Except.ok t1))) := by
  constructor
  · intro hsend
    refine ⟨?_, ?_, ?_, ?_⟩
    · intro h1
      simp [checkAndSetFields, autofillTransactionParameters, hsend, h1]
    · intro h1 h2
      simp [checkAndSetFields, autofillTransactionParameters, hsend, h1, h2]
    · intro sb h1 h2 h3
      simp [checkAndSetFields, autofillTransactionParameters, hsend, h1, h2, h3]
    · intro sb h1 h2 h3 h4
      simp [checkAndSetFields, autofillTransactionParameters, hsend, h1, h2,
        h3, h4, List.length_pos]
  · intro hsend
    constructor
    · intro h
      simp [checkAndSetFields, autofillTransactionParameters, hsend]
      split <;> simp
    · intro hdn
      simp [checkAndSetFields, autofillTransactionParameters, hsend, hdn]

/-- Witness for C3 at a concrete receive template with the empty
`fromBlockHash` sentinel. -/
theorem validation_receive_gating_witness :
    (checkAndSetFields wEnvPow wKeyPair wRuleATemplate).1 =
      Except.error () :=
  ((validation_receive_gating wEnvPow wKeyPair wRuleATemplate).1
    (by decide)).1 rfl

/-- C10. For every `blockType` value that is not one of the two send
variants — including values outside the closed enumeration and a
missing value — `isSendBlock` returns `false`, and the validation
gate applies the receive-variant rules (`fromBlockHash` sentinel,
referenced-send lookup, `toAddress` match, empty `data`) to such a
template. -/
theorem isSendBlock_nonsend_receive_rules (env : Env) (kp : KeyPair)
    (t : AccountBlockTemplate)
    (hbt1 : t.blockType ≠ BlockTypeEnum.userSend)
    (hbt2 : t.blockType ≠ BlockTypeEnum.contractSend) :
    (∀ bt : Option Nat, bt ≠ some BlockTypeEnum.userSend →
      bt ≠ some BlockTypeEnum.contractSend → isSendBlock bt = false)
    ∧ isSendBlock none = false
    ∧ (t.fromBlockHash = emptyHashBytes →
        (checkAndSetFields env kp t).1 = Except.error ())
    ∧ (t.fromBlockHash ≠ emptyHashBytes →
        Event.blockByHashQuery t.fromBlockHash ∈ (checkAndSetFields env kp t).2)
    ∧ (∀ sb, t.fromBlockHash ≠ emptyHashBytes →
        env.getBlockByHash t.fromBlockHash = some sb →
        sb.toAddress ≠ kp.address →
        (checkAndSetFields env kp t).1 = Except.error ())
    ∧ (∀ sb, t.fromBlockHash ≠ emptyHashBytes →
        env.getBlockByHash t.fromBlockHash = some sb →
        sb.toAddress = kp.address → t.data ≠ [] →
        (checkAndSetFields env kp t).1 = Except.error ()) := by
  have hgen : ∀ bt : Option Nat, bt ≠ some BlockTypeEnum.userSend →
      bt ≠ some BlockTypeEnum.contractSend → isSendBlock bt = false := by
    intro bt h1 h2
    match bt with
    | none => rfl
    | some b =>
      simp [isSendBlock, BlockTypeEnum.userSend, BlockTypeEnum.contractSend] at h1 h2 ⊢
      omega
  have hsend : isSendBlock (some t.blockType) = false := by
    apply hgen
    · simp [hbt1]
    · simp [hbt2]
  refine ⟨hgen, rfl, ?_, ?_, ?_, ?_⟩
  · intro h1
    simp [checkAndSetFields, autofillTransactionParameters, hsend, h1]
  · intro h1
    rcases hq : env.getBlockByHash t.fromBlockHash with _ | sb
    · simp [checkAndSetFields, autofillTransactionParameters, hsend, h1, hq]
    · by_cases h3 : sb.toAddress = kp.address
      · by_cases h4 : t.data = []
        · simp [checkAndSetFields, autofillTransactionParameters, hsend, h1,
            hq, h3, h4]
          split <;> simp
        · simp [checkAndSetFields, autofillTransactionParameters, hsend, h1,
            hq, h3, h4, List.length_pos]
      · simp [checkAndSetFields, autofillTransactionParameters, hsend, h1,
          hq, h3]
  · intro sb h1 h2 h3
    simp [checkAndSetFields, autofillTransactionParameters, hsend, h1, h2, h3]
  · intro sb h1 h2 h3 h4
    simp [checkAndSetFields, autofillTransactionParameters, hsend, h1, h2,
      h3, h4, List.length_pos]

/-- Witness for C10 at a block type outside the closed
enumeration. -/
theorem isSendBlock_nonsend_receive_rules_witness :
    isSendBlock (some 7) = false
    ∧ isSendBlock none = false
    ∧ (checkAndSetFields wEnvPow wKeyPair wOutsideTemplate).1 =
        Except.error () := by
  have h := isSendBlock_nonsend_receive_rules wEnvPow wKeyPair
    wOutsideTemplate (by decide) (by decide)
  exact ⟨h.1 (some 7) (by decide) (by decide), h.2.1, h.2.2.1 rfl⟩

/-- C8 counterexample: two templates violating different structural
rules (the empty-`fromBlockHash` rule and the non-empty-`data` rule)
produce identical, information-free error values — the error does not
identify which rule was violated, so the causes are not
distinguishable by the caller. -/
theorem validation_error_indistinct_counterexample :
    (checkAndSetFields wEnvPow wKeyPair wRuleATemplate).1 = Except.error ()
    ∧ (checkAndSetFields wEnvPow wKeyPair wRuleDTemplate).1 = Except.error ()
    ∧ (checkAndSetFields wEnvPow wKeyPair wRuleATemplate).1 =
        (checkAndSetFields wEnvPow wKeyPair wRuleDTemplate).1
    ∧ wRuleATemplate.fromBlockHash = emptyHashBytes
    ∧ wRuleDTemplate.fromBlockHash ≠ emptyHashBytes
    ∧ wRuleDTemplate.data ≠ [] := by
  refine ⟨by decide, by decide, by decide, by decide, by decide, by decide⟩

/-- C8 amended: every structural violation of the validation gate
aborts the pipeline with an error, but the error is the single
information-free value of the source's bare `throw Error()` — the same
for every rule — rather than a rule-identifying cause. -/
theorem validation_error_abort (env : Env) (kp : KeyPair)
    (t : AccountBlockTemplate) :
    (isSendBlock (some t.blockType) = false →
      ((t.fromBlockHash = emptyHashBytes →
          (checkAndSetFields env kp t).1 = Except.error ())
      ∧ (t.fromBlockHash ≠ emptyHashBytes →
          env.getBlockByHash t.fromBlockHash = none →
          (checkAndSetFields env kp t).1 = Except.error ())
      ∧ (∀ sb, t.fromBlockHash ≠ emptyHashBytes →
          env.getBlockByHash t.fromBlockHash = some sb →
          sb.toAddress ≠ kp.address →
          (checkAndSetFields env kp t).1 = Except.error ())
      ∧ (∀ sb, t.fromBlockHash ≠ emptyHashBytes →
          env.getBlockByHash t.fromBlockHash = some sb →
          sb.toAddress = kp.address → t.data ≠ [] →
          (checkAndSetFields env kp t).1 = Except.error ())))
    ∧ (isSendBlock (some t.blockType) = true → 0 < t.difficulty →
        t.nonce = "" → (checkAndSetFields env kp t).1 = Except.error ()) := by
  constructor
  · intro hsend
    refine ⟨?_, ?_, ?_, ?_⟩
    · intro h1
      simp [checkAndSetFields, autofillTransactionParameters, hsend, h1]
    · intro h1 h2
      simp [checkAndSetFields, autofillTransactionParameters, hsend, h1, h2]
    · intro sb h1 h2 h3
      simp [checkAndSetFields, autofillTransactionParameters, hsend, h1, h2, h3]
    · intro sb h1 h2 h3 h4
      simp [checkAndSetFields, autofillTransactionParameters, hsend, h1, h2,
        h3, h4, List.length_pos]
  · intro hsend hd hn
    simp [checkAndSetFields, autofillTransactionParameters, hsend, hd, hn]

/-- Witness for the amended C8 at the difficulty/nonce consistency
guard. -/
theorem validation_error_abort_witness :
    (checkAndSetFields wEnvPow wKeyPair wGuardTemplate).1 =
      Except.error () :=
  (validation_error_abort wEnvPow wKeyPair wGuardTemplate).2 (by decide)
    (by decide) rfl

/-- C9 counterexample: with proof-of-work required, a throwing
observer aborts the plasma stage with an error, while the same run
with no observer completes — an observer failure does affect the
pipeline in the source. -/
theorem observer_failure_aborts_counterexample :
    (setDifficulty constDigest wEnvPow wBadObserver wTemplate).1 =
      Except.error ()
    ∧ (setDifficulty constDigest wEnvPow none wTemplate).1 =
        Except.ok { wTemplate with
          fusedPlasma := 1000
          difficulty := 31
          nonce := "00000000000000ab" }
    ∧ (setDifficulty constDigest wEnvPow wBadObserver wTemplate).1 ≠
        (setDifficulty constDigest wEnvPow none wTemplate).1 := by
  refine ⟨by decide, by decide, by decide⟩

/-- C9 amended: when proof-of-work is required and a progress
observer is supplied, the "generating" signal is emitted before the
PoW search and the "done" signal after it, and provided the observer
does not fail, the stage completes identically to a run with no
observer; a failing observer, however, aborts the stage (the source
does not guard the callback). -/
theorem observer_signal_order (digest : Bytes → Bytes) (env : Env)
    (f : PowStatus → Except Unit Unit) (t : AccountBlockTemplate)
    (hreq : (env.getRequiredPoW
      ⟨t.address, t.blockType, t.toAddress, t.data⟩).requiredDifficulty ≠ 0)
    (hf : ∀ s, f s = Except.ok ()) :
    (setDifficulty digest env (some f) t).1 =
      (setDifficulty digest env none t).1
    ∧ (setDifficulty digest env (some f) t).2 =
        [Event.plasmaQuery ⟨t.address, t.blockType, t.toAddress, t.data⟩,
          Event.observerSignal PowStatus.generating,
          Event.powSolve (digest (t.address ++ t.previousHash))
            (env.getRequiredPoW
              ⟨t.address, t.blockType, t.toAddress, t.data⟩).requiredDifficulty,
          Event.observerSignal PowStatus.done] := by
  constructor
  · simp [setDifficulty, hreq, hf, notifyObserver, getPoWData, observerEvents]
  · simp [setDifficulty, hreq, hf, notifyObserver, getPoWData, observerEvents]

/-- Witness for the amended C9 at a concrete environment requiring
difficulty 31 and a succeeding observer. -/
theorem observer_signal_order_witness :
    (setDifficulty constDigest wEnvPow (some wGoodObserver) wTemplate).1 =
      (setDifficulty constDigest wEnvPow none wTemplate).1
    ∧ (setDifficulty constDigest wEnvPow (some wGoodObserver) wTemplate).2 =
        [Event.plasmaQuery
          ⟨wTemplate.address, wTemplate.blockType, wTemplate.toAddress,
            wTemplate.data⟩,
          Event.observerSignal PowStatus.generating,
          Event.powSolve
            (constDigest (wTemplate.address ++ wTemplate.previousHash)) 31,
          Event.observerSignal PowStatus.done] := by
  exact observer_signal_order constDigest wEnvPow wGoodObserver wTemplate
    (by decide) (fun s => rfl)

/-- C5. The send pipeline runs its stages in the fixed order
validation gate, plasma fusion policy, hash-and-sign, publish: a
fully successful run returns the finalized template and its trace is
the stage traces concatenated in that order, ending in the publish
call; and a receive template whose `fromBlockHash` does not resolve
fails with a validation error whose trace holds no Plasma-Quota query
and no signing call. -/
theorem send_pipeline_order (digest : Bytes → Bytes) (env : Env)
    (kp : KeyPair) (cb : Observer) (t : AccountBlockTemplate) :
    (∀ t1 e1 t2 e2 t3 e3,
      checkAndSetFields env kp t = (Except.ok t1, e1) →
      setDifficulty digest env cb t1 = (Except.ok t2, e2) →
      setHashAndSignature digest kp t2 = (Except.ok t3, e3) →
      send digest env kp cb t =
        (Except.ok t3, e1 ++ e2 ++ e3 ++ [Event.publishCall t3]))
    ∧ (isSendBlock (some t.blockType) = false →
      env.getBlockByHash t.fromBlockHash = none →
        ((send digest env kp cb t).1 = Except.error ()
        ∧ (∀ p, Event.plasmaQuery p ∉ (send digest env kp cb t).2)
        ∧ (∀ m, Event.signCall m ∉ (send digest env kp cb t).2))) := by
  constructor
  · intro t1 e1 t2 e2 t3 e3 h1 h2 h3
    simp [send, stageAndThen, h1, h2, h3, List.append_assoc]
  · intro hsend hnone
    by_cases hfb : t.fromBlockHash = emptyHashBytes
    · refine ⟨?_, ?_, ?_⟩ <;>
        simp [send, stageAndThen, checkAndSetFields,
          autofillTransactionParameters, hsend, hfb]
    · refine ⟨?_, ?_, ?_⟩ <;>
        simp [send, stageAndThen, checkAndSetFields,
          autofillTransactionParameters, hsend, hfb, hnone]

/-- Witness for C5: a receive template whose `fromBlockHash` does not
resolve fails with zero Plasma-Quota queries and zero signing
calls. -/
theorem send_pipeline_order_witness :
    (send constDigest wEnvNoFrontier wKeyPair none wReceiveTemplate).1 =
      Except.error ()
    ∧ Event.plasmaQuery
        ⟨wReceiveTemplate.address, wReceiveTemplate.blockType,
          wReceiveTemplate.toAddress, wReceiveTemplate.data⟩ ∉
        (send constDigest wEnvNoFrontier wKeyPair none wReceiveTemplate).2
    ∧ Event.signCall emptyHashBytes ∉
        (send constDigest wEnvNoFrontier wKeyPair none wReceiveTemplate).2 := by
  have h := (send_pipeline_order constDigest wEnvNoFrontier wKeyPair none
    wReceiveTemplate).2 (by decide) rfl
  exact ⟨h.1, h.2.1 _, h.2.2 _⟩

/-- C6 counterexample: at `amount = -24` the encoder emits the
two's-complement sequence `255, ..., 255, 232` (the divergence the
source itself notes at `block.ts` lines 31-35), which is not an
unsigned big-endian encoding of the value `-24` — no natural number
equals `-24`. -/
theorem amount_negative_counterexample :
    numberToBytes (-24) 32 = List.replicate 31 255 ++ [232]
    ∧ ¬ IsUnsignedBE32 (numberToBytes (-24) 32) (-24) := by
  constructor
  · set_option maxRecDepth 10000 in decide
  · rintro ⟨n, hn, _⟩
    omega

/-- C6 amended: for non-negative amounts in the signed 256-bit range
admitted by the data model, the 32-byte amount field emitted by the
canonical encoder is the unsigned big-endian encoding of the integer
value; negative amounts are instead emitted in two's-complement
form. -/
theorem amount_unsigned_bigendian (a : Int) (h0 : 0 ≤ a)
    (h1 : a < 2 ^ 255) : IsUnsignedBE32 (numberToBytes a 32) a := by
  refine ⟨a.toNat, by omega, ?_⟩
  rw [numberToBytes_nonneg a h0 (lt_trans h1 (by norm_num))]

/-- Witness for the amended C6 at `amount = 100`. -/
theorem amount_unsigned_bigendian_witness :
    (0 : Int) ≤ 100 ∧ (100 : Int) < 2 ^ 255
    ∧ IsUnsignedBE32 (numberToBytes 100 32) 100 :=
  ⟨by norm_num, by norm_num,
    amount_unsigned_bigendian 100 (by norm_num) (by norm_num)⟩

/-- Big-endian roundtrip for the 8-byte integer encoding. -/
theorem fromBe_longToBytes (n : Nat) (h : n < 2 ^ 64) :
    fromBeBytes (longToBytes n) = n := by
  apply fromBeBytes_beBytes
  have : (256 : Nat) ^ 8 = 2 ^ 64 := by norm_num
  omega

/-- Left padding makes the sequence exactly the zero-prefix followed
by the decoded bytes whenever the input is not longer than the target
width. -/
theorem leftPadBytes_eq (l : Bytes) (size : Nat) (h : l.length ≤ size) :
    leftPadBytes l size = List.replicate (size - l.length) 0 ++ l := by
  unfold leftPadBytes
  split
  · have hs : size = l.length := by omega
    simp [hs]
  · rfl

/-- C1. For every fully-populated template with data-model-valid
field values, `getTransactionHash` digests exactly the sixteen
spec-ordered segments — version, chainIdentifier, blockType,
previousHash, height, momentumAcknowledged-as-digest, address,
toAddress, amount (unsigned big-endian), tokenStandard,
fromBlockHash, digest of the empty byte sequence, digest of `data`,
fusedPlasma, difficulty, left-padded nonce — whose byte widths are
8, 8, 8, 32, 8, 32, 20, 20, 32, 10, 32, 32, 32, 8, 8, 8, and the
fixed-width integer segments are big-endian (their digits denote the
field value, most significant first). -/
theorem encoding_field_order_and_widths (digest : Bytes → Bytes)
    (t : AccountBlockTemplate)
    (hdig : ∀ l, (digest l).length = 32)
    (hprev : t.previousHash.length = 32)
    (haddr : t.address.length = 20)
    (hto : t.toAddress.length = 20)
    (hfrom : t.fromBlockHash.length = 32)
    (hts : t.tokenStandard.length = 10)
    (hnonce : (hexToBytes t.nonce).length ≤ 8)
    (hver : t.version < 2 ^ 64) (hchain : t.chainIdentifier < 2 ^ 64)
    (hbt : t.blockType < 2 ^ 64) (hh : t.height < 2 ^ 64)
    (hfp : t.fusedPlasma < 2 ^ 64) (hdf : t.difficulty < 2 ^ 64)
    (ha0 : 0 ≤ t.amount) (ha1 : t.amount < 2 ^ 255) :
    getTransactionHash digest t =
      digest (specFieldSegments digest t).flatten
    ∧ (specFieldSegments digest t).map List.length =
        [8, 8, 8, 32, 8, 32, 20, 20, 32, 10, 32, 32, 32, 8, 8, 8]
    ∧ fromBeBytes (longToBytes t.version) = t.version
    ∧ fromBeBytes (longToBytes t.chainIdentifier) = t.chainIdentifier
    ∧ fromBeBytes (longToBytes t.blockType) = t.blockType
    ∧ fromBeBytes (longToBytes t.height) = t.height
    ∧ fromBeBytes (longToBytes t.fusedPlasma) = t.fusedPlasma
    ∧ fromBeBytes (longToBytes t.difficulty) = t.difficulty
    ∧ (fromBeBytes (beBytes 32 t.amount.toNat) : Int) = t.amount
    ∧ leftPadBytes (hexToBytes t.nonce) 8 =
        List.replicate (8 - (hexToBytes t.nonce).length) 0 ++
          hexToBytes t.nonce := by
  have hamt : numberToBytes t.amount 32 = beBytes 32 t.amount.toNat :=
    numberToBytes_nonneg t.amount ha0 (lt_trans ha1 (by norm_num))
  have hafrom : fromBeBytes (beBytes 32 t.amount.toNat) = t.amount.toNat := by
    apply fromBeBytes_beBytes
    have h2 : (256 : Nat) ^ 32 = 2 ^ 256 := by norm_num
    have h3 : ((2 : Int) ^ 255).toNat = 2 ^ 255 := by
      norm_num
      rfl
    have h4 : (2 : Nat) ^ 255 < 2 ^ 256 := by norm_num
    omega
  refine ⟨?_, ?_, fromBe_longToBytes _ hver, fromBe_longToBytes _ hchain,
    fromBe_longToBytes _ hbt, fromBe_longToBytes _ hh,
    fromBe_longToBytes _ hfp, fromBe_longToBytes _ hdf,
    by rw [hafrom]; omega, leftPadBytes_eq _ 8 hnonce⟩
  · simp [getTransactionHash, getTransactionHashSource, specFieldSegments,
      hamt, List.flatten]
  · simp [specFieldSegments, longToBytes_length, beBytes_length,
      hashHeightBytes, hdig, hprev, haddr, hto, hfrom, hts,
      leftPadBytes_length _ 8 hnonce]

/-- Witness for C1 at a concrete template and a concrete stand-in
digest. -/
theorem encoding_field_order_and_widths_witness :
    getTransactionHash constDigest wTemplate =
      constDigest (specFieldSegments constDigest wTemplate).flatten
    ∧ (specFieldSegments constDigest wTemplate).map List.length =
        [8, 8, 8, 32, 8, 32, 20, 20, 32, 10, 32, 32, 32, 8, 8, 8] := by
  have h := encoding_field_order_and_widths constDigest wTemplate
    (fun l => rfl) (by decide) (by decide) (by decide) (by decide)
    (by decide) (by decide) (by decide) (by decide) (by decide)
    (by decide) (by decide) (by decide)
    (by show (0 : Int) ≤ 100; norm_num)
    (by show (100 : Int) < 2 ^ 255; norm_num)
  exact ⟨h.1, h.2.1⟩

/-- Equality of hash-height pairs follows from equality of the
components. -/
theorem hashHeight_eq (a b : HashHeight) (h1 : a.hash = b.hash)
    (h2 : a.height = b.height) : a = b := by
  cases a
  cases b
  simp_all

/-- C7 counterexample: two templates that differ in exactly one field
— the nonce string, "" versus "00" — encode to the same byte sequence
and therefore the same hash: the encoder is not injective in the
nonce string. -/
theorem encoding_nonce_collision_counterexample :
    wTemplate.nonce ≠ wNonceTemplate.nonce
    ∧ getTransactionHashSource idDigest wTemplate =
        getTransactionHashSource idDigest wNonceTemplate
    ∧ getTransactionHash idDigest wTemplate =
        getTransactionHash idDigest wNonceTemplate := by
  refine ⟨by decide, ?_, ?_⟩
  · set_option maxRecDepth 100000 in decide
  · set_option maxRecDepth 100000 in decide

/-- C7 amended: over data-model-valid field values, the canonical
encoding is deterministic and injective up to the decoded nonce: two
templates encode to the same byte sequence exactly when they agree on
every consensus field, with the nonce compared by its decoded,
left-padded 8-byte value rather than as a raw string (distinct
strings such as "" and "00" decode to the same bytes and collide).
The digest is assumed 32-byte-valued and collision-free on the two
momentum pairs and the two data payloads involved. -/
theorem encoding_injective_upto_nonce (digest : Bytes → Bytes)
    (t1 t2 : AccountBlockTemplate)
    (hdig : ∀ l, (digest l).length = 32)
    (hmominj : digest (t1.momentumAcknowledged.hash ++
        longToBytes t1.momentumAcknowledged.height) =
      digest (t2.momentumAcknowledged.hash ++
        longToBytes t2.momentumAcknowledged.height) →
      t1.momentumAcknowledged.hash ++
          longToBytes t1.momentumAcknowledged.height =
        t2.momentumAcknowledged.hash ++
          longToBytes t2.momentumAcknowledged.height)
    (hdatainj : digest t1.data = digest t2.data → t1.data = t2.data)
    (hprev1 : t1.previousHash.length = 32)
    (hprev2 : t2.previousHash.length = 32)
    (haddr1 : t1.address.length = 20) (haddr2 : t2.address.length = 20)
    (hto1 : t1.toAddress.length = 20) (hto2 : t2.toAddress.length = 20)
    (hfrom1 : t1.fromBlockHash.length = 32)
    (hfrom2 : t2.fromBlockHash.length = 32)
    (hts1 : t1.tokenStandard.length = 10)
    (hts2 : t2.tokenStandard.length = 10)
    (hmomh1 : t1.momentumAcknowledged.hash.length = 32)
    (hmomh2 : t2.momentumAcknowledged.hash.length = 32)
    (hmomht1 : t1.momentumAcknowledged.height < 2 ^ 64)
    (hmomht2 : t2.momentumAcknowledged.height < 2 ^ 64)
    (hver1 : t1.version < 2 ^ 64) (hver2 : t2.version < 2 ^ 64)
    (hchain1 : t1.chainIdentifier < 2 ^ 64)
    (hchain2 : t2.chainIdentifier < 2 ^ 64)
    (hbt1 : t1.blockType < 2 ^ 64) (hbt2 : t2.blockType < 2 ^ 64)
    (hh1 : t1.height < 2 ^ 64) (hh2 : t2.height < 2 ^ 64)
    (hfp1 : t1.fusedPlasma < 2 ^ 64) (hfp2 : t2.fusedPlasma < 2 ^ 64)
    (hdf1 : t1.difficulty < 2 ^ 64) (hdf2 : t2.difficulty < 2 ^ 64)
    (ham1a : -(2 ^ 255) ≤ t1.amount) (ham1b : t1.amount < 2 ^ 255)
    (ham2a : -(2 ^ 255) ≤ t2.amount) (ham2b : t2.amount < 2 ^ 255) :
    getTransactionHashSource digest t1 =
        getTransactionHashSource digest t2 ↔
      (t1.version = t2.version
      ∧ t1.chainIdentifier = t2.chainIdentifier
      ∧ t1.blockType = t2.blockType
      ∧ t1.previousHash = t2.previousHash
      ∧ t1.height = t2.height
      ∧ t1.momentumAcknowledged = t2.momentumAcknowledged
      ∧ t1.address = t2.address
      ∧ t1.toAddress = t2.toAddress
      ∧ t1.amount = t2.amount
      ∧ t1.tokenStandard = t2.tokenStandard
      ∧ t1.fromBlockHash = t2.fromBlockHash
      ∧ t1.data = t2.data
      ∧ t1.fusedPlasma = t2.fusedPlasma
      ∧ t1.difficulty = t2.difficulty
      ∧ leftPadBytes (hexToBytes t1.nonce) 8 =
          leftPadBytes (hexToBytes t2.nonce) 8) := by
  constructor
  · intro h
    simp only [getTransactionHashSource, hashHeightBytes] at h
    simp only [List.append_assoc] at h
    obtain ⟨e1, h⟩ := List.append_inj h (by simp [longToBytes_length])
    obtain ⟨e2, h⟩ := List.append_inj h (by simp [longToBytes_length])
    obtain ⟨e3, h⟩ := List.append_inj h (by simp [longToBytes_length])
    obtain ⟨e4, h⟩ := List.append_inj h (by simp [hprev1, hprev2])
    obtain ⟨e5, h⟩ := List.append_inj h (by simp [longToBytes_length])
    obtain ⟨e6, h⟩ := List.append_inj h (by simp [hdig])
    obtain ⟨e7, h⟩ := List.append_inj h (by simp [haddr1, haddr2])
    obtain ⟨e8, h⟩ := List.append_inj h (by simp [hto1, hto2])
    obtain ⟨e9, h⟩ := List.append_inj h (by simp [numberToBytes_length])
    obtain ⟨e10, h⟩ := List.append_inj h (by simp [hts1, hts2])
    obtain ⟨e11, h⟩ := List.append_inj h (by simp [hfrom1, hfrom2])
    obtain ⟨e12, h⟩ := List.append_inj h (by simp [hdig])
    obtain ⟨e13, h⟩ := List.append_inj h (by simp [hdig])
    obtain ⟨e14, h⟩ := List.append_inj h (by simp [longToBytes_length])
    obtain ⟨e15, e16⟩ := List.append_inj h (by simp [longToBytes_length])
    have hm := hmominj e6
    obtain ⟨hmh, hmt⟩ := List.append_inj hm (by simp [hmomh1, hmomh2])
    exact ⟨longToBytes_injOn _ _ hver1 hver2 e1,
      longToBytes_injOn _ _ hchain1 hchain2 e2,
      longToBytes_injOn _ _ hbt1 hbt2 e3,
      e4,
      longToBytes_injOn _ _ hh1 hh2 e5,
      hashHeight_eq _ _ hmh (longToBytes_injOn _ _ hmomht1 hmomht2 hmt),
      e7, e8,
      numberToBytes_injOn _ _ ham1a ham1b ham2a ham2b e9,
      e10, e11,
      hdatainj e13,
      longToBytes_injOn _ _ hfp1 hfp2 e14,
      longToBytes_injOn _ _ hdf1 hdf2 e15,
      e16⟩
  · rintro ⟨e1, e2, e3, e4, e5, e6, e7, e8, e9, e10, e11, e12, e13, e14, e15⟩
    simp only [getTransactionHashSource, hashHeightBytes]
    rw [e1, e2, e3, e4, e5, e6, e7, e8, e9, e10, e11, e12, e13, e14, e15]

/-- Witness for the amended C7: two concrete templates that agree on
every consensus field and whose distinct nonce strings decode to the
same padded bytes produce the same encoding, by the right-to-left
direction at a concrete digest. -/
theorem encoding_injective_upto_nonce_witness :
    getTransactionHashSource constDigest wTemplate =
      getTransactionHashSource constDigest wNonceTemplate := by
  exact (encoding_injective_upto_nonce constDigest wTemplate wNonceTemplate
    (fun l => rfl) (fun h => rfl) (fun h => rfl)
    (by decide) (by decide) (by decide) (by decide) (by decide) (by decide)
    (by decide) (by decide) (by decide) (by decide) (by decide) (by decide)
    (by decide) (by decide)
    (by decide) (by decide) (by decide) (by decide) (by decide) (by decide)
    (by decide) (by decide) (by decide) (by decide) (by decide) (by decide)
    (by show -((2 : Int) ^ 255) ≤ 100; norm_num)
    (by show (100 : Int) < 2 ^ 255; norm_num)
    (by show -((2 : Int) ^ 255) ≤ 100; norm_num)
    (by show (100 : Int) < 2 ^ 255; norm_num)).mpr
    ⟨rfl, rfl, rfl, rfl, rfl, rfl, rfl, rfl, rfl, rfl, rfl, rfl, rfl, rfl,
      by decide⟩

end ZnnTs
